import Mathlib

/-!
Verification of the bukvarix-mcp-server core pipeline: a shallow embedding of
the request-building / response-normalization code (src/services/api-client.ts,
src/constants.ts, src/tools/keywords.ts, src/tools/domains.ts,
src/schemas/*.ts) together with theorems settling the frozen claims.

JavaScript values are modelled by the inductive `JsVal`; numeric values are
modelled as integers (every numeric datum the code manipulates is integral),
with `JsVal.nan` covering the NaN produced by `parseInt` on non-numeric text.
String lengths and `substring` are modelled over characters.
-/

/-- Model of a JavaScript runtime value as manipulated by the server code. -/
inductive JsVal where
  | null
  | undefined
  | nan
  | bool (b : Bool)
  | num (n : Int)
  | str (s : String)
  | arr (xs : List JsVal)
  | obj (fields : List (String × JsVal))
deriving Repr

/-- JavaScript truthiness: null, undefined, NaN, false, 0 and "" are falsy. -/
def truthy : JsVal → Bool
  | .null => false
  | .undefined => false
  | .nan => false
  | .bool b => b
  | .num n => n != 0
  | .str s => s != ""
  | .arr _ => true
  | .obj _ => true

/-- JavaScript `a || b`: returns `a` when truthy, else `b`. -/
def jsOr (a b : JsVal) : JsVal := if truthy a then a else b

/-- Named property access `v.k` / `v["k"]`.  Objects look the key up; every
other shape yields `undefined` (arrays and strings have no named data
properties the code uses). -/
def getProp (v : JsVal) (k : String) : JsVal :=
  match v with
  | .obj fields => ((fields.find? (fun p => p.1 == k)).map (fun p => p.2)).getD .undefined
  | _ => .undefined

/-- Indexed access `v[i]`: array element, object property named by the decimal
index, single-character string for string receivers, `undefined` otherwise. -/
def idx (v : JsVal) (i : Nat) : JsVal :=
  match v with
  | .arr xs => (xs.get? i).getD .undefined
  | .obj fields => getProp (.obj fields) (toString i)
  | .str s => ((s.data.get? i).map (fun c => JsVal.str (String.mk [c]))).getD .undefined
  | _ => .undefined

/-- JavaScript object-literal assignment: overwrite the value at an existing
key in place, otherwise append the pair at the end. -/
def objSet (fields : List (String × JsVal)) (k : String) (v : JsVal) :
    List (String × JsVal) :=
  if fields.any (fun p => p.1 == k) then
    fields.map (fun p => if p.1 == k then (k, v) else p)
  else
    fields ++ [(k, v)]

mutual

/-- JavaScript `String(v)` / template-literal coercion. -/
def jsToString : JsVal → String
  | .null => "null"
  | .undefined => "undefined"
  | .nan => "NaN"
  | .bool true => "true"
  | .bool false => "false"
  | .num n => toString n
  | .str s => s
  | .arr xs => jsArrJoin "," xs
  | .obj _ => "[object Object]"

/-- `Array.prototype.join`: each element is coerced with `String(...)` except
null/undefined, which render as the empty string. -/
def jsArrJoin (sep : String) : List JsVal → String
  | [] => ""
  | [x] =>
      (match x with
       | .null => ""
       | .undefined => ""
       | v => jsToString v)
  | x :: y :: rest =>
      (match x with
       | .null => ""
       | .undefined => ""
       | v => jsToString v) ++ sep ++ jsArrJoin sep (y :: rest)

end

/-- Escape a string for JSON output (the escapes `JSON.stringify` emits for
the characters occurring in this system's data). -/
def jsonQuote (s : String) : String :=
  "\"" ++ String.join (s.data.map (fun c =>
    if c = '"' then "\\\""
    else if c = '\\' then "\\\\"
    else if c = '\n' then "\\n"
    else if c = '\r' then "\\r"
    else if c = '\t' then "\\t"
    else String.mk [c])) ++ "\""

mutual

/-- `JSON.stringify(v, null, 2)` at indentation `ind` (indent of the line the
value starts on).  NaN serializes as null; undefined only occurs at positions
the pipeline never produces. -/
def jsonStr2 (ind : String) : JsVal → String
  | .null => "null"
  | .nan => "null"
  | .undefined => "undefined"
  | .bool true => "true"
  | .bool false => "false"
  | .num n => toString n
  | .str s => jsonQuote s
  | .arr [] => "[]"
  | .arr (x :: xs) =>
      "[\n" ++ jsonStr2Items (ind ++ "  ") (x :: xs) ++ "\n" ++ ind ++ "]"
  | .obj [] => "\x7b\x7d"
  | .obj (f :: fs) =>
      "\x7b\n" ++ jsonStr2Fields (ind ++ "  ") (f :: fs) ++ "\n" ++ ind ++ "\x7d"

/-- Array items of `JSON.stringify(·, null, 2)`, one per line. -/
def jsonStr2Items (ind : String) : List JsVal → String
  | [] => ""
  | [x] => ind ++ jsonStr2 ind x
  | x :: y :: rest => ind ++ jsonStr2 ind x ++ ",\n" ++ jsonStr2Items ind (y :: rest)

/-- Object members of `JSON.stringify(·, null, 2)`, one per line. -/
def jsonStr2Fields (ind : String) : List (String × JsVal) → String
  | [] => ""
  | [(k, v)] => ind ++ jsonQuote k ++ ": " ++ jsonStr2 ind v
  | (k, v) :: g :: rest =>
      ind ++ jsonQuote k ++ ": " ++ jsonStr2 ind v ++ ",\n" ++
        jsonStr2Fields ind (g :: rest)

end

/-- `JSON.stringify(v, null, 2)` as used by the formatters' fallback branches. -/
def jsonStringify2 (v : JsVal) : String := jsonStr2 "" v

/-! ### JSON decoding (model of `JSON.parse` as used by `parseResponse`)

Numeric literals are modelled as integers: every numeric datum exchanged with
the upstream API is integral.  The decoder is fuelled; `jsonDecode` supplies
fuel larger than the input length, which bounds the nesting depth. -/

/-- JSON whitespace. -/
def jsonWs (c : Char) : Bool := c = ' ' || c = '\t' || c = '\n' || c = '\r'

/-- Drop leading JSON whitespace. -/
def skipJsonWs (cs : List Char) : List Char := cs.dropWhile jsonWs

/-- Decode the body of a JSON string literal (after the opening quote),
returning the decoded text and the remainder after the closing quote. -/
def jsonDecodeStrBody : List Char → Option (String × List Char)
  | [] => none
  | '"' :: rest => some ("", rest)
  | '\\' :: e :: rest =>
      (show Option String from
        match e with
        | '"' => some "\""
        | '\\' => some "\\"
        | '/' => some "/"
        | 'n' => some "\n"
        | 't' => some "\t"
        | 'r' => some "\r"
        | 'b' => some (String.mk [Char.ofNat 8])
        | 'f' => some (String.mk [Char.ofNat 12])
        | _ => none).bind (fun piece =>
        (jsonDecodeStrBody rest).map (fun p => (piece ++ p.1, p.2)))
  | c :: rest =>
      (jsonDecodeStrBody rest).map (fun p => (String.mk [c] ++ p.1, p.2))

/-- Value of a list of decimal digits. -/
def digitsVal (ds : List Char) : Nat :=
  ds.foldl (fun a c => a * 10 + (c.toNat - 48)) 0

mutual

/-- Fuelled JSON value decoder: returns the value and the unconsumed rest. -/
def jsonDecodeVal : Nat → List Char → Option (JsVal × List Char)
  | 0, _ => none
  | Nat.succ fuel, cs =>
      match skipJsonWs cs with
      | 'n' :: 'u' :: 'l' :: 'l' :: rest => some (.null, rest)
      | 't' :: 'r' :: 'u' :: 'e' :: rest => some (.bool true, rest)
      | 'f' :: 'a' :: 'l' :: 's' :: 'e' :: rest => some (.bool false, rest)
      | '"' :: rest => (jsonDecodeStrBody rest).map (fun p => (.str p.1, p.2))
      | '[' :: rest =>
          (match skipJsonWs rest with
           | ']' :: rest2 => some (.arr [], rest2)
           | _ =>
             (jsonDecodeItems fuel rest).bind (fun p =>
               match skipJsonWs p.2 with
               | ']' :: rest2 => some (.arr p.1, rest2)
               | _ => none))
      | '\x7b' :: rest =>
          (match skipJsonWs rest with
           | '\x7d' :: rest2 => some (.obj [], rest2)
           | _ =>
             (jsonDecodeMembers fuel rest).bind (fun p =>
               match skipJsonWs p.2 with
               | '\x7d' :: rest2 => some (.obj p.1, rest2)
               | _ => none))
      | '-' :: rest =>
          let ds := rest.takeWhile Char.isDigit
          if ds.isEmpty then none
          else some (.num (-(digitsVal ds : Int)), rest.drop ds.length)
      | c :: rest =>
          if c.isDigit then
            let ds := (c :: rest).takeWhile Char.isDigit
            some (.num (digitsVal ds), (c :: rest).drop ds.length)
          else none
      | [] => none

/-- Comma-separated JSON array items. -/
def jsonDecodeItems : Nat → List Char → Option (List JsVal × List Char)
  | 0, _ => none
  | Nat.succ fuel, cs =>
      (jsonDecodeVal fuel cs).bind (fun p =>
        match skipJsonWs p.2 with
        | ',' :: rest =>
            (jsonDecodeItems fuel rest).map (fun q => (p.1 :: q.1, q.2))
        | rest => some ([p.1], rest))

/-- Comma-separated JSON object members. -/
def jsonDecodeMembers : Nat → List Char → Option (List (String × JsVal) × List Char)
  | 0, _ => none
  | Nat.succ fuel, cs =>
      match skipJsonWs cs with
      | '"' :: rest =>
          (jsonDecodeStrBody rest).bind (fun kp =>
            match skipJsonWs kp.2 with
            | ':' :: rest2 =>
                (jsonDecodeVal fuel rest2).bind (fun vp =>
                  match skipJsonWs vp.2 with
                  | ',' :: rest3 =>
                      (jsonDecodeMembers fuel rest3).map
                        (fun q => ((kp.1, vp.1) :: q.1, q.2))
                  | rest3 => some ([(kp.1, vp.1)], rest3))
            | _ => none)
      | _ => none

end

/-- Model of `JSON.parse`: `some` on success, `none` where `JSON.parse`
throws a SyntaxError. -/
def jsonDecode (s : String) : Option JsVal :=
  match jsonDecodeVal (s.length + 1) s.data with
  | some (v, rest) => if (skipJsonWs rest).isEmpty then some v else none
  | none => none

/-! ### Percent encoding -/

/-- Uppercase hexadecimal digit. -/
def hexDigit (n : Nat) : Char :=
  if n < 10 then Char.ofNat (48 + n) else Char.ofNat (55 + n)

/-- UTF-8 bytes of a character. -/
def utf8Bytes (c : Char) : List Nat :=
  let n := c.toNat
  if n < 128 then [n]
  else if n < 2048 then [192 + n / 64, 128 + n % 64]
  else if n < 65536 then [224 + n / 4096, 128 + (n / 64) % 64, 128 + n % 64]
  else [240 + n / 262144, 128 + (n / 4096) % 64, 128 + (n / 64) % 64, 128 + n % 64]

/-- Percent-escape of a single byte, uppercase hex. -/
def pctByte (b : Nat) : String :=
  String.mk ['%', hexDigit (b / 16), hexDigit (b % 16)]

/-- Characters `encodeURIComponent` leaves unescaped. -/
def uriUnreserved (c : Char) : Bool :=
  c.isAlphanum || c = '-' || c = '_' || c = '.' || c = '!' || c = '~' ||
    c = '*' || c = Char.ofNat 39 || c = '(' || c = ')'

/-- `encodePercentEncoding` from api-client.ts, i.e. `encodeURIComponent`. -/
def encodePercentEncoding (s : String) : String :=
  String.join (s.data.map (fun c =>
    if uriUnreserved c then String.mk [c]
    else String.join ((utf8Bytes c).map pctByte)))

/-- Characters `URLSearchParams` serialization leaves unescaped. -/
def formUnreserved (c : Char) : Bool :=
  c.isAlphanum || c = '*' || c = '-' || c = '.' || c = '_'

/-- `application/x-www-form-urlencoded` escape of one component
(`URLSearchParams.toString` on a single key or value). -/
def formEncodeComp (s : String) : String :=
  String.join (s.data.map (fun c =>
    if formUnreserved c then String.mk [c]
    else if c = ' ' then "+"
    else String.join ((utf8Bytes c).map pctByte)))

/-- Join a list of strings with a separator. -/
def joinSep (sep : String) : List String → String
  | [] => ""
  | [x] => x
  | x :: y :: rest => x ++ sep ++ joinSep sep (y :: rest)

/-- `URLSearchParams.toString()` over an ordered list of key/value pairs. -/
def formEncode (pairs : List (String × String)) : String :=
  joinSep "&" (pairs.map (fun kv => formEncodeComp kv.1 ++ "=" ++ formEncodeComp kv.2))

/-! ### Constants (src/constants.ts) -/

def API_BASE_URL : String := "http://api.bukvarix.com"
def CHARACTER_LIMIT : Nat := 25000
def DEFAULT_NUM : Nat := 250
def MAX_NUM : Nat := 1000000
def MAX_QUERIES_FREE : Nat := 100
def MAX_EXCLUSIONS_FREE : Nat := 250
def MAX_DOMAINS_COMPARE : Nat := 10

/-- The four response formats (`FORMATS` in constants.ts). -/
inductive Format where
  | txt
  | json
  | csv
  | tsv
deriving DecidableEq, Repr

/-- Wire spelling of a format tag. -/
def Format.toStr : Format → String
  | .txt => "txt"
  | .json => "json"
  | .csv => "csv"
  | .tsv => "tsv"

/-- `REPORT_TYPES` in constants.ts. -/
inductive ReportType where
  | report
  | word_analysis
deriving DecidableEq, Repr

/-- Wire spelling of a report type. -/
def ReportType.toStr : ReportType → String
  | .report => "report"
  | .word_analysis => "word_analysis"

/-- `COMPARISON_TYPES` in constants.ts. -/
inductive ComparisonType where
  | intersect
  | domain1_uniq
  | domain2_uniq
deriving DecidableEq, Repr

/-- Wire spelling of a comparison type. -/
def ComparisonType.toStr : ComparisonType → String
  | .intersect => "intersect"
  | .domain1_uniq => "domain1_uniq"
  | .domain2_uniq => "domain2_uniq"

/-! ### Response normalization (`parseResponse` in api-client.ts) -/

/-- A raw transport response: either text, or a structure the transport layer
already JSON-decoded (axios auto-parsing). -/
inductive RawResponse where
  | text (s : String)
  | struct (v : JsVal)
deriving Repr

/-- `String(data)` coercion of a raw response used by the txt/csv/tsv paths. -/
def rawToString : RawResponse → String
  | .text s => s
  | .struct v => jsToString v

/-- Split a character list at every occurrence of a separator character
(the semantics of JavaScript `split` with a one-character separator). -/
def splitOnChar (sep : Char) : List Char → List (List Char)
  | [] => [[]]
  | c :: rest =>
      let r := splitOnChar sep rest
      if c = sep then [] :: r
      else
        match r with
        | [] => [[c]]
        | g :: gs => (c :: g) :: gs

/-- `s.split(sep)` for a one-character separator. -/
def splitOnStr (s : String) (sep : Char) : List String :=
  (splitOnChar sep s.data).map String.mk

/-- JavaScript `String.prototype.trim`. -/
def jsTrim (s : String) : String :=
  String.mk (((s.data.dropWhile Char.isWhitespace).reverse.dropWhile
    Char.isWhitespace).reverse)

/-- Split on newline and drop blank/whitespace-only lines
(`split("\n").filter(line => line.trim())`). -/
def nonBlankLines (s : String) : List String :=
  (splitOnStr s '\n').filter (fun l => !(jsTrim l == ""))

/-- One `replace(/^"|"$/g, "")` pass: strip one leading and one trailing
literal quote character. -/
def stripOuterQuotes (s : String) : String :=
  let l1 := match s.data with
    | '"' :: rest => rest
    | l => l
  String.mk (match l1.reverse with
    | '"' :: rest => rest.reverse
    | _ => l1)

/-- Cell at `i`: `values[index]?.trim().replace(/^"|"$/g, "") || ""` — missing
trailing cells become the empty string. -/
def delimitedCell (values : List String) (i : Nat) : String :=
  stripOuterQuotes (jsTrim (values.getD i ""))

/-- One row of a delimited table: zip positionally against the headers; row
keys are the trimmed headers; extra value cells beyond the header count are
dropped because only header indices are consulted. -/
def buildRow (headers values : List String) : JsVal :=
  .obj (headers.enum.foldl
    (fun acc p => objSet acc (jsTrim p.2) (.str (delimitedCell values p.1))) [])

/-- The csv/tsv branch of `parseResponse`. -/
def parseDelimited (s : String) (delim : Char) : JsVal :=
  let lines := nonBlankLines s
  let headers := match lines with
    | [] => []
    | h :: _ => splitOnStr h delim
  let rows := (lines.drop 1).map (fun line => buildRow headers (splitOnStr line delim))
  .obj [("headers", .arr (headers.map .str)), ("rows", .arr rows)]

/-- `parseResponse(data, format)` from api-client.ts: normalize a raw response
according to the format tag. -/
def parseResponse (data : RawResponse) (format : Format) : JsVal :=
  match format with
  | .json =>
      match data with
      | .text s =>
          match jsonDecode s with
          | some v => v
          | none => .obj [("raw", .str s)]
      | .struct v => v
  | .txt => .arr ((nonBlankLines (rawToString data)).map .str)
  | .csv => parseDelimited (rawToString data) ';'
  | .tsv => parseDelimited (rawToString data) '\t'

/-! ### Response formatters (tools/keywords.ts and tools/domains.ts) -/

/-- Elements of a value known to be an array (`Array.isArray` positive case). -/
def asArr : JsVal → List JsVal
  | .arr xs => xs
  | _ => []

/-- Enumerated `data.map((kw, i) => line).join("\n")`. -/
def enumLines (f : Nat → JsVal → String) (xs : List JsVal) : String :=
  String.intercalate "\n" (xs.enum.map (fun p => f p.1 p.2))

/-- The markdown table block shared by the three formatters:
header row, separator row, one row per entry. -/
def mdTableBlock (hs rs : List JsVal) : String :=
  "| " ++ jsArrJoin " | " hs ++ " |\n|" ++
    String.intercalate "|" (hs.map (fun _ => "---")) ++ "|\n" ++
    String.intercalate "\n" (rs.map (fun row =>
      "| " ++ jsArrJoin " | " (hs.map (fun h => jsOr (getProp row (jsToString h)) (.str ""))) ++ " |"))

/-- `kw.keyword || kw[0] || kw` in `formatKeywordsResponse`. -/
def kwRecKeyword (kw : JsVal) : JsVal := jsOr (getProp kw "keyword") (jsOr (idx kw 0) kw)

/-- `kw.broad_frequency || kw[1] || "N/A"` in `formatKeywordsResponse`. -/
def kwRecBroad (kw : JsVal) : JsVal :=
  jsOr (getProp kw "broad_frequency") (jsOr (idx kw 1) (.str "N/A"))

/-- `kw.exact_frequency || kw[2] || "N/A"` in `formatKeywordsResponse`. -/
def kwRecExact (kw : JsVal) : JsVal :=
  jsOr (getProp kw "exact_frequency") (jsOr (idx kw 2) (.str "N/A"))

/-- One enumerated line of the keyword-search JSON formatter. -/
def kwLine (i : Nat) (kw : JsVal) : String :=
  toString (i + 1) ++ ". " ++ jsToString (kwRecKeyword kw) ++ " - Broad: " ++
    jsToString (kwRecBroad kw) ++ ", Exact: " ++ jsToString (kwRecExact kw)

/-- `formatKeywordsResponse(data, format, query)` from tools/keywords.ts. -/
def formatKeywordsResponse (data : JsVal) (format : Format) (query : String) : String :=
  let heading := "# Keywords Search Results: \"" ++ query ++ "\""
  match format with
  | .json =>
      match data with
      | .arr xs =>
          heading ++ "\n\nFound " ++ toString xs.length ++ " keywords:\n\n" ++
            enumLines kwLine xs
      | _ => heading ++ "\n\n" ++ jsonStringify2 data
  | .txt =>
      match data with
      | .arr xs =>
          heading ++ "\n\nFound " ++ toString xs.length ++ " keywords:\n\n" ++
            jsArrJoin "\n" xs
      | _ => heading ++ "\n\n" ++ jsToString data
  | _ =>
      if truthy (getProp data "headers") && truthy (getProp data "rows") then
        heading ++ "\n\nFound " ++ toString (asArr (getProp data "rows")).length ++
          " keywords:\n\n" ++
          mdTableBlock (asArr (getProp data "headers")) (asArr (getProp data "rows"))
      else heading ++ "\n\n" ++ jsonStringify2 data

/-- `kw.keyword || kw[0] || kw` in `formatDomainResponse`. -/
def domRecKeyword (kw : JsVal) : JsVal := jsOr (getProp kw "keyword") (jsOr (idx kw 0) kw)

/-- `kw.position !== undefined ? kw.position : kw[5]` in `formatDomainResponse`. -/
def domRecPosition (kw : JsVal) : JsVal :=
  match getProp kw "position" with
  | .undefined => idx kw 5
  | v => v

/-- `kw.broad_frequency || kw[4] || "N/A"` in `formatDomainResponse`. -/
def domRecBroad (kw : JsVal) : JsVal :=
  jsOr (getProp kw "broad_frequency") (jsOr (idx kw 4) (.str "N/A"))

/-- `kw.exact_frequency || kw[5] || "N/A"` in `formatDomainResponse`. -/
def domRecExact (kw : JsVal) : JsVal :=
  jsOr (getProp kw "exact_frequency") (jsOr (idx kw 5) (.str "N/A"))

/-- One enumerated line of the domain-lookup JSON formatter. -/
def domLine (i : Nat) (kw : JsVal) : String :=
  toString (i + 1) ++ ". " ++ jsToString (domRecKeyword kw) ++ " - Position: " ++
    jsToString (domRecPosition kw) ++ ", Broad: " ++ jsToString (domRecBroad kw) ++
    ", Exact: " ++ jsToString (domRecExact kw)

/-- Region suffix appended to formatter headings. -/
def regionSuffix : Option String → String
  | some r => " (" ++ r ++ ")"
  | none => ""

/-- `formatDomainResponse(data, format, domain, region)` from tools/domains.ts. -/
def formatDomainResponse (data : JsVal) (format : Format) (domain : String)
    (region : Option String) : String :=
  let heading := "# Domain Keywords: " ++ domain ++ regionSuffix region
  match format with
  | .json =>
      match data with
      | .arr xs =>
          heading ++ "\n\nFound " ++ toString xs.length ++ " keywords:\n\n" ++
            enumLines domLine xs
      | _ => heading ++ "\n\n" ++ jsonStringify2 data
  | .txt =>
      match data with
      | .arr xs =>
          heading ++ "\n\nFound " ++ toString xs.length ++ " keywords:\n\n" ++
            jsArrJoin "\n" xs
      | _ => heading ++ "\n\n" ++ jsToString data
  | _ =>
      if truthy (getProp data "headers") && truthy (getProp data "rows") then
        heading ++ "\n\nFound " ++ toString (asArr (getProp data "rows")).length ++
          " keywords:\n\n" ++
          mdTableBlock (asArr (getProp data "headers")) (asArr (getProp data "rows"))
      else heading ++ "\n\n" ++ jsonStringify2 data

/-- `kw.keyword || kw[0] || kw` in `formatComparisonResponse`. -/
def cmpRecKeyword (kw : JsVal) : JsVal := jsOr (getProp kw "keyword") (jsOr (idx kw 0) kw)

/-- `kw.position !== undefined ? kw.position : kw[5]` in `formatComparisonResponse`. -/
def cmpRecPosition (kw : JsVal) : JsVal :=
  match getProp kw "position" with
  | .undefined => idx kw 5
  | v => v

/-- `kw.broad_frequency || kw[4] || "N/A"` in `formatComparisonResponse`. -/
def cmpRecBroad (kw : JsVal) : JsVal :=
  jsOr (getProp kw "broad_frequency") (jsOr (idx kw 4) (.str "N/A"))

/-- `kw.exact_frequency || kw[5] || "N/A"` in `formatComparisonResponse`. -/
def cmpRecExact (kw : JsVal) : JsVal :=
  jsOr (getProp kw "exact_frequency") (jsOr (idx kw 5) (.str "N/A"))

/-- One enumerated line of the domain-comparison JSON formatter. -/
def cmpLine (i : Nat) (kw : JsVal) : String :=
  toString (i + 1) ++ ". " ++ jsToString (cmpRecKeyword kw) ++ " - Position: " ++
    jsToString (cmpRecPosition kw) ++ ", Broad: " ++ jsToString (cmpRecBroad kw) ++
    ", Exact: " ++ jsToString (cmpRecExact kw)

/-- The comparison-mode label in the comparison heading. -/
def comparisonLabel (comparisonType : String) : String :=
  if comparisonType == "intersect" then "Common"
  else if comparisonType == "domain1_uniq" then "Unique to first"
  else "Unique to second"

/-- `formatComparisonResponse(data, format, domains, comparisonType, region)`
from tools/domains.ts. -/
def formatComparisonResponse (data : JsVal) (format : Format) (domains : List String)
    (comparisonType : String) (region : Option String) : String :=
  let heading := "# Domain Comparison: " ++ String.intercalate " vs " domains ++
    regionSuffix region
  let label := comparisonLabel comparisonType
  match format with
  | .json =>
      match data with
      | .arr xs =>
          heading ++ "\n\n" ++ label ++ " keywords (" ++ toString xs.length ++
            "):\n\n" ++ enumLines cmpLine xs
      | _ => heading ++ "\n\n" ++ jsonStringify2 data
  | .txt =>
      match data with
      | .arr xs =>
          heading ++ "\n\n" ++ label ++ " keywords (" ++ toString xs.length ++
            "):\n\n" ++ jsArrJoin "\n" xs
      | _ => heading ++ "\n\n" ++ jsToString data
  | _ =>
      if truthy (getProp data "headers") && truthy (getProp data "rows") then
        heading ++ "\n\n" ++ label ++ " keywords (" ++
          toString (asArr (getProp data "rows")).length ++ "):\n\n" ++
          mdTableBlock (asArr (getProp data "headers")) (asArr (getProp data "rows"))
      else heading ++ "\n\n" ++ jsonStringify2 data

/-! ### Error classification (`handleApiError` in api-client.ts) -/

/-- Classified transport failures. -/
inductive ApiErr where
  | httpStatus (status : Nat) (body : RawResponse)
  | timeout
  | unreachable
  | other (msg : String)

/-- `handleApiError(error)` from api-client.ts. -/
def handleApiError : ApiErr → String
  | .httpStatus 400 body =>
      "Error: Invalid request. " ++
        (match body with
         | .text s => s
         | .struct _ => "Check your parameters.")
  | .httpStatus 401 _ =>
      "Error: Authentication failed. Check your API key (BUKVARIX_API_KEY environment variable)."
  | .httpStatus 402 _ =>
      "Error: Limit exceeded. Free API limits: max 100 queries, 250 exclusions, 10 domains for comparison. Try reducing the \x27num\x27 parameter or use filters."
  | .httpStatus 429 _ =>
      "Error: Rate limit exceeded. Please wait before making more requests."
  | .httpStatus 500 _ =>
      "Error: Internal server error. Please contact Bukvarix support."
  | .httpStatus 503 _ =>
      "Error: Server maintenance in progress. Please try again later."
  | .httpStatus status body =>
      "Error: API request failed with status " ++ toString status ++ ". " ++
        (match body with
         | .text s => s
         | .struct _ => "")
  | .timeout => "Error: Request timed out. Please try again."
  | .unreachable => "Error: Cannot connect to Bukvarix API. Check your internet connection."
  | .other msg => "Error: Unexpected error occurred: " ++ msg

/-! ### Transport client (`makeApiRequest` in api-client.ts) -/

/-- HTTP verb. -/
inductive Verb where
  | get
  | post
deriving DecidableEq, Repr

/-- A scalar query-parameter value. -/
inductive SVal where
  | str (s : String)
  | num (n : Int)
  | bool (b : Bool)
deriving DecidableEq, Repr

/-- A body-field value: scalar or list of strings. -/
inductive FVal where
  | str (s : String)
  | num (n : Int)
  | bool (b : Bool)
  | list (xs : List String)
deriving DecidableEq, Repr

/-- `String(value)` for a scalar. -/
def svalToString : SVal → String
  | .str s => s
  | .num n => toString n
  | .bool true => "true"
  | .bool false => "false"

/-- Scalar embedded into a body-field value. -/
def svalToFval : SVal → FVal
  | .str s => .str s
  | .num n => .num n
  | .bool b => .bool b

/-- Body-field serialization: `Array.isArray(value) ? value.join("\r\n")
: String(value)`. -/
def fvalToString : FVal → String
  | .str s => s
  | .num n => toString n
  | .bool true => "true"
  | .bool false => "false"
  | .list xs => String.intercalate "\r\n" xs

/-- The default credential (`process.env.BUKVARIX_API_KEY || "free"` with the
environment unset). -/
def API_KEY : String := "free"

/-- A handler-level request passed to `makeApiRequest`. -/
structure ApiRequest where
  endpoint : String
  method : Verb
  data : Option (List (String × FVal))
  params : Option (List (String × SVal))
deriving Repr

/-- The axios request configuration `makeApiRequest` builds. -/
structure WireRequest where
  url : String
  method : Verb
  headers : List (String × String)
  body : Option String
  params : Option (List (String × SVal))
  timeout : Nat
deriving Repr

/-- `{ ...params, api_key: API_KEY }`: overwrite an existing `api_key` entry in
place, otherwise append it. -/
def objUpsertParams (ps : List (String × SVal)) (k : String) (v : SVal) :
    List (String × SVal) :=
  if ps.any (fun p => p.1 == k) then ps.map (fun p => if p.1 == k then (k, v) else p)
  else ps ++ [(k, v)]

/-- The request-building part of `makeApiRequest(endpoint, method, data,
params)`: POST with a body sends the credential first in a form-urlencoded
body; every other call sends it among the query parameters. -/
def makeApiRequestWire (apiKey endpoint : String) (method : Verb)
    (data : Option (List (String × FVal))) (params : Option (List (String × SVal))) :
    WireRequest :=
  match method, data with
  | .post, some d =>
      { url := API_BASE_URL ++ endpoint, method := .post,
        headers := [("Content-Type", "application/x-www-form-urlencoded")],
        body := some (formEncode (("api_key", apiKey) ::
          d.map (fun kv => (kv.1, fvalToString kv.2)))),
        params := none, timeout := 30000 }
  | m, _ =>
      { url := API_BASE_URL ++ endpoint, method := m, headers := [], body := none,
        params := some (match params with
          | some ps => objUpsertParams ps "api_key" (.str apiKey)
          | none => [("api_key", .str apiKey)]),
        timeout := 30000 }

/-! ### Validated tool inputs (schemas/keywords.ts, schemas/domains.ts)

The Zod layer validates and fills defaults before a handler runs; the `mk…`
functions model the application of the schema defaults. -/

/-- Validated input of `bukvarix_search_keywords`. -/
structure SearchKeywordsInput where
  query : String
  num : Nat
  format : Format
  report_type : ReportType
  result_count : Bool
deriving Repr

/-- Zod defaults of `SearchKeywordsSchema`: num 250, format json,
report_type report, result_count false. -/
def mkSearchKeywordsInput (query : String) (num : Option Nat) (format : Option Format)
    (rt : Option ReportType) (rc : Option Bool) : SearchKeywordsInput :=
  ⟨query, num.getD DEFAULT_NUM, format.getD .json, rt.getD .report, rc.getD false⟩

/-- Validated input of `bukvarix_search_keywords_batch`. -/
structure SearchKeywordsBatchInput where
  queries : List String
  exclusions : Option (List String)
  num : Nat
  format : Format
deriving Repr

/-- Validated input of `bukvarix_get_domain_keywords`. -/
structure GetDomainKeywordsInput where
  domain : String
  region : Option String
  num : Nat
  format : Format
  result_count : Bool
deriving Repr

/-- Validated input of `bukvarix_compare_domains`. -/
structure CompareDomainsInput where
  domains : List String
  comparison_type : ComparisonType
  region : Option String
  num : Nat
  format : Format
  result_count : Bool
deriving Repr

/-- Zod defaults of `CompareDomainsSchema`: comparison_type intersect,
num 250, format json, result_count false. -/
def mkCompareDomainsInput (domains : List String) (ct : Option ComparisonType)
    (region : Option String) (num : Option Nat) (format : Option Format)
    (rc : Option Bool) : CompareDomainsInput :=
  ⟨domains, ct.getD .intersect, region, num.getD DEFAULT_NUM, format.getD .json,
    rc.getD false⟩

/-! ### Operation handlers

Each handler is split at its single suspend point: a request builder
(everything before `await makeApiRequest`) and a responder (everything after,
applied to the settled transport result).  The responder receives
`Except ApiErr RawResponse`; the error side models the `Error` thrown by
`makeApiRequest`, whose message is `handleApiError(error)`, caught at the
handler boundary. -/

/-- Optional trailing `region` query parameter. -/
def regionParam : Option String → List (String × SVal)
  | some r => [("region", .str r)]
  | none => []

/-- Request built by `searchKeywords` (tools/keywords.ts). -/
def searchKeywordsRequest (p : SearchKeywordsInput) : ApiRequest :=
  { endpoint := "/v1/keywords/", method := .get, data := none,
    params := some [("q", .str (encodePercentEncoding p.query)),
                    ("num", .num (p.num : Int)),
                    ("format", .str p.format.toStr),
                    ("report_type", .str p.report_type.toStr),
                    ("result_count", .num (if p.result_count then 1 else 0))] }

/-- Request built by `searchKeywordsBatch` (tools/keywords.ts). -/
def searchKeywordsBatchRequest (p : SearchKeywordsBatchInput) : ApiRequest :=
  let exclusionsText := match p.exclusions with
    | some es => String.intercalate "\r\n" es
    | none => ""
  { endpoint := "/v1/mkeywords/", method := .post,
    data := some ([("q", FVal.str (String.intercalate "\r\n" p.queries))] ++
      (if exclusionsText == "" then [] else [("q2", FVal.str exclusionsText)]) ++
      [("num", FVal.str (toString p.num)), ("format", FVal.str p.format.toStr)]),
    params := none }

/-- Request built by `getDomainKeywords` (tools/domains.ts). -/
def getDomainKeywordsRequest (p : GetDomainKeywordsInput) : ApiRequest :=
  { endpoint := "/v1/site/", method := .get, data := none,
    params := some ([("q", .str (encodePercentEncoding p.domain)),
                     ("num", .num (p.num : Int)),
                     ("format", .str p.format.toStr),
                     ("result_count", .num (if p.result_count then 1 else 0))] ++
      regionParam p.region) }

/-- Request built by `compareDomains` (tools/domains.ts): two domains use the
two-way compare endpoint over GET, otherwise the multi-compare endpoint over
POST with a CRLF-joined domain list. -/
def compareDomainsRequest (p : CompareDomainsInput) : ApiRequest :=
  let isTwo := p.domains.length == 2
  let endpoint := if isTwo then "/v1/site_cmp/" else "/v1/site_mcmp/"
  if p.result_count then
    let base := [("result_count", SVal.num 1), ("format", SVal.str p.format.toStr)]
    let ps := (if isTwo then
        base ++ [("q", SVal.str (encodePercentEncoding (p.domains.getD 0 ""))),
                 ("q2", SVal.str (encodePercentEncoding (p.domains.getD 1 "")))] ++
          (if p.comparison_type.toStr == "" then []
           else [("comparison_type", SVal.str p.comparison_type.toStr)])
      else
        base ++ [("q", SVal.str (String.intercalate "\r\n"
          (p.domains.map encodePercentEncoding)))]) ++ regionParam p.region
    if isTwo then
      { endpoint := endpoint, method := .get, data := none, params := some ps }
    else
      { endpoint := endpoint, method := .post,
        data := some (ps.map (fun kv => (kv.1, svalToFval kv.2))), params := none }
  else
    if isTwo then
      { endpoint := endpoint, method := .get, data := none,
        params := some ([("q", SVal.str (encodePercentEncoding (p.domains.getD 0 ""))),
                         ("q2", SVal.str (encodePercentEncoding (p.domains.getD 1 ""))),
                         ("num", SVal.num (p.num : Int)),
                         ("format", SVal.str p.format.toStr),
                         ("comparison_type", SVal.str p.comparison_type.toStr)] ++
          regionParam p.region) }
    else
      { endpoint := endpoint, method := .post,
        data := some ([("q", FVal.str (String.intercalate "\r\n"
                          (p.domains.map encodePercentEncoding))),
                       ("num", FVal.str (toString p.num)),
                       ("format", FVal.str p.format.toStr)] ++
          (regionParam p.region).map (fun kv => (kv.1, svalToFval kv.2))),
        params := none }

/-- `parseInt(s, 10)`: skip leading whitespace, optional sign, leading decimal
digits; NaN when no digit. -/
def jsParseInt (s : String) : JsVal :=
  let cs := s.data.dropWhile Char.isWhitespace
  match cs with
  | '-' :: rest =>
      let ds := rest.takeWhile Char.isDigit
      if ds.isEmpty then .nan else .num (-(digitsVal ds : Int))
  | '+' :: rest =>
      let ds := rest.takeWhile Char.isDigit
      if ds.isEmpty then .nan else .num (digitsVal ds)
  | _ =>
      let ds := cs.takeWhile Char.isDigit
      if ds.isEmpty then .nan else .num (digitsVal ds)

/-- The count-only conversion shared by the handlers:
`typeof r === "string" ? parseInt(r, 10) : typeof r === "number" ? r
: parseInt(String(r), 10)`. -/
def responseCount (resp : RawResponse) : JsVal :=
  match resp with
  | .text s => jsParseInt s
  | .struct (.num n) => .num n
  | .struct .nan => .nan
  | .struct v => jsParseInt (jsToString v)

/-- The tool outcome: one text content item and an optional structured
payload. -/
structure Outcome where
  text : String
  structuredContent : Option JsVal
deriving Repr

/-- The truncation notice appended by every handler. -/
def truncNotice : String :=
  "\n\n[Response truncated. Use \x27num\x27 parameter to limit results.]"

/-- `textContent.length > CHARACTER_LIMIT ? textContent.substring(0,
CHARACTER_LIMIT) + notice : textContent`. -/
def truncateDisplay (t : String) : String :=
  if t.length > CHARACTER_LIMIT then String.mk (t.data.take CHARACTER_LIMIT) ++ truncNotice
  else t

/-- `searchKeywords` after the transport call settles (tools/keywords.ts). -/
def searchKeywordsRespond (p : SearchKeywordsInput) (r : Except ApiErr RawResponse) :
    Outcome :=
  match r with
  | .error e => { text := handleApiError e, structuredContent := none }
  | .ok resp =>
      if p.result_count then
        let count := responseCount resp
        { text := "Total results found: " ++ jsToString count,
          structuredContent := some (.obj [("total", count)]) }
      else
        let parsed := parseResponse resp p.format
        { text := truncateDisplay (formatKeywordsResponse parsed p.format p.query),
          structuredContent := some parsed }

/-- `searchKeywordsBatch` after the transport call settles (tools/keywords.ts). -/
def searchKeywordsBatchRespond (p : SearchKeywordsBatchInput)
    (r : Except ApiErr RawResponse) : Outcome :=
  match r with
  | .error e => { text := handleApiError e, structuredContent := none }
  | .ok resp =>
      let parsed := parseResponse resp p.format
      { text := truncateDisplay (formatKeywordsResponse parsed p.format
          ("Batch search (" ++ toString p.queries.length ++ " queries)")),
        structuredContent := some parsed }

/-- `getDomainKeywords` after the transport call settles (tools/domains.ts). -/
def getDomainKeywordsRespond (p : GetDomainKeywordsInput)
    (r : Except ApiErr RawResponse) : Outcome :=
  match r with
  | .error e => { text := handleApiError e, structuredContent := none }
  | .ok resp =>
      if p.result_count then
        let count := responseCount resp
        { text := "Total keywords found for " ++ p.domain ++ ": " ++ jsToString count,
          structuredContent := some (.obj [("total", count), ("domain", .str p.domain)]) }
      else
        let parsed := parseResponse resp p.format
        { text := truncateDisplay (formatDomainResponse parsed p.format p.domain p.region),
          structuredContent := some parsed }

/-- JavaScript object-spread of a value (`{ ...parsed, … }`): objects
contribute their fields, arrays and strings their indexed elements, primitives
nothing. -/
def spreadFields : JsVal → List (String × JsVal)
  | .obj fs => fs
  | .arr xs => xs.enum.map (fun p => (toString p.1, p.2))
  | .str s => s.data.enum.map (fun p => (toString p.1, JsVal.str (String.mk [p.2])))
  | _ => []

/-- Assign a list of extra fields onto an object field list, in order. -/
def objSetAll (fs extra : List (String × JsVal)) : List (String × JsVal) :=
  extra.foldl (fun acc kv => objSet acc kv.1 kv.2) fs

/-- `compareDomains` after the transport call settles (tools/domains.ts); the
structured payload is `{ ...parsed, domains, comparison_type }`. -/
def compareDomainsRespond (p : CompareDomainsInput) (r : Except ApiErr RawResponse) :
    Outcome :=
  match r with
  | .error e => { text := handleApiError e, structuredContent := none }
  | .ok resp =>
      if p.result_count then
        let count := responseCount resp
        { text := "Total keywords found: " ++ jsToString count,
          structuredContent := some (.obj
            [("total", count), ("domains", .arr (p.domains.map .str)),
             ("comparison_type", .str p.comparison_type.toStr)]) }
      else
        let parsed := parseResponse resp p.format
        { text := truncateDisplay (formatComparisonResponse parsed p.format p.domains
            p.comparison_type.toStr p.region),
          structuredContent := some (.obj (objSetAll (spreadFields parsed)
            [("domains", .arr (p.domains.map .str)),
             ("comparison_type", .str p.comparison_type.toStr)])) }

/-! ### Helper lemmas -/

lemma string_data_length (s : String) : s.data.length = s.length := by
  cases s
  rfl

lemma truncateDisplay_length_le (t : String) :
    (truncateDisplay t).length ≤ CHARACTER_LIMIT + truncNotice.length := by
  unfold truncateDisplay
  by_cases h : t.length > CHARACTER_LIMIT
  · rw [if_pos h, String.length_append, String.length_mk, List.length_take,
      string_data_length]
    have hmin := Nat.min_le_left CHARACTER_LIMIT t.length
    omega
  · rw [if_neg h]
    omega

lemma truncateDisplay_of_gt (t : String) (h : CHARACTER_LIMIT < t.length) :
    truncateDisplay t = String.mk (t.data.take CHARACTER_LIMIT) ++ truncNotice := by
  unfold truncateDisplay
  rw [if_pos h]

lemma truncateDisplay_of_le (t : String) (h : t.length ≤ CHARACTER_LIMIT) :
    truncateDisplay t = t := by
  unfold truncateDisplay
  rw [if_neg (by omega)]

lemma searchKeywords_text_eq (p : SearchKeywordsInput) (r : RawResponse)
    (h : p.result_count = false) :
    (searchKeywordsRespond p (.ok r)).text
      = truncateDisplay (formatKeywordsResponse (parseResponse r p.format) p.format p.query) := by
  simp only [searchKeywordsRespond, h, Bool.false_eq_true, if_false]

lemma searchKeywords_payload_eq (p : SearchKeywordsInput) (r : RawResponse)
    (h : p.result_count = false) :
    (searchKeywordsRespond p (.ok r)).structuredContent = some (parseResponse r p.format) := by
  simp only [searchKeywordsRespond, h, Bool.false_eq_true, if_false]

lemma searchKeywordsBatch_text_eq (p : SearchKeywordsBatchInput) (r : RawResponse) :
    (searchKeywordsBatchRespond p (.ok r)).text
      = truncateDisplay (formatKeywordsResponse (parseResponse r p.format) p.format
          ("Batch search (" ++ toString p.queries.length ++ " queries)")) := rfl

lemma searchKeywordsBatch_payload_eq (p : SearchKeywordsBatchInput) (r : RawResponse) :
    (searchKeywordsBatchRespond p (.ok r)).structuredContent
      = some (parseResponse r p.format) := rfl

lemma getDomainKeywords_text_eq (p : GetDomainKeywordsInput) (r : RawResponse)
    (h : p.result_count = false) :
    (getDomainKeywordsRespond p (.ok r)).text
      = truncateDisplay (formatDomainResponse (parseResponse r p.format) p.format
          p.domain p.region) := by
  simp only [getDomainKeywordsRespond, h, Bool.false_eq_true, if_false]

lemma getDomainKeywords_payload_eq (p : GetDomainKeywordsInput) (r : RawResponse)
    (h : p.result_count = false) :
    (getDomainKeywordsRespond p (.ok r)).structuredContent
      = some (parseResponse r p.format) := by
  simp only [getDomainKeywordsRespond, h, Bool.false_eq_true, if_false]

lemma compareDomains_text_eq (p : CompareDomainsInput) (r : RawResponse)
    (h : p.result_count = false) :
    (compareDomainsRespond p (.ok r)).text
      = truncateDisplay (formatComparisonResponse (parseResponse r p.format) p.format
          p.domains p.comparison_type.toStr p.region) := by
  simp only [compareDomainsRespond, h, Bool.false_eq_true, if_false]

lemma compareDomains_payload_eq (p : CompareDomainsInput) (r : RawResponse)
    (h : p.result_count = false) :
    (compareDomainsRespond p (.ok r)).structuredContent
      = some (.obj (objSetAll (spreadFields (parseResponse r p.format))
          [("domains", .arr (p.domains.map .str)),
           ("comparison_type", .str p.comparison_type.toStr)])) := by
  simp only [compareDomainsRespond, h, Bool.false_eq_true, if_false]

lemma truthy_jsOr_chain (a b d : JsVal) (hd : truthy d = true) :
    truthy (jsOr a (jsOr b d)) = true := by
  unfold jsOr
  by_cases h1 : truthy a = true
  · rw [if_pos h1]
    exact h1
  · rw [if_neg h1]
    by_cases h2 : truthy b = true
    · rw [if_pos h2]
      exact h2
    · rw [if_neg h2]
      exact hd

lemma comparisonType_toStr_ne_empty (c : ComparisonType) : (c.toStr == "") = false := by
  cases c <;> rfl

lemma joinSep_cons_ex (sep x : String) (xs : List String) :
    ∃ r : String, joinSep sep (x :: xs) = x ++ r := by
  cases xs with
  | nil => exact ⟨"", (String.append_empty x).symm⟩
  | cons y ys =>
      exact ⟨sep ++ joinSep sep (y :: ys), String.append_assoc x sep (joinSep sep (y :: ys))⟩

lemma mem_objUpsertParams (ps : List (String × SVal)) (k : String) (v : SVal) :
    (k, v) ∈ objUpsertParams ps k v := by
  unfold objUpsertParams
  by_cases h : ps.any (fun p => p.1 == k) = true
  · rw [if_pos h]
    obtain ⟨x, hx, hpx⟩ := List.any_eq_true.mp h
    refine List.mem_map.mpr ⟨x, hx, ?_⟩
    rw [if_pos hpx]
  · rw [if_neg h]
    exact List.mem_append_right _ (List.mem_singleton.mpr rfl)

/-! ### Claims -/

/-- A 25,010-character keyword used to exercise the truncation path. -/
def bigKeyword : String := String.mk (List.replicate 25010 'a')

/-- A 25,001-character string just over the display limit. -/
def bigWitnessStr : String := String.mk (List.replicate 25001 'a')

/-- C1 (amended): for every operation's success path, the display text is the
formatted text passed through the truncation step, so its length never exceeds
CHARACTER_LIMIT (25,000) plus the length of the truncation notice; formatted
text over the limit is cut to its first 25,000 characters with the notice
appended, shorter text is returned unchanged; the structured payload is
unaffected by truncation — the keyword, batch and domain-lookup handlers
return the full normalized result, and the comparison handler returns the full
normalized result spread together with its domains / comparison-type
metadata. -/
theorem C1_truncation_policy_amended :
    (∀ t : String, (truncateDisplay t).length ≤ CHARACTER_LIMIT + truncNotice.length) ∧
    (∀ t : String, CHARACTER_LIMIT < t.length →
        truncateDisplay t = String.mk (t.data.take CHARACTER_LIMIT) ++ truncNotice) ∧
    (∀ t : String, t.length ≤ CHARACTER_LIMIT → truncateDisplay t = t) ∧
    (∀ (p : SearchKeywordsInput) (r : RawResponse), p.result_count = false →
        (searchKeywordsRespond p (.ok r)).text
            = truncateDisplay (formatKeywordsResponse (parseResponse r p.format)
                p.format p.query) ∧
        (searchKeywordsRespond p (.ok r)).structuredContent
            = some (parseResponse r p.format)) ∧
    (∀ (p : SearchKeywordsBatchInput) (r : RawResponse),
        (searchKeywordsBatchRespond p (.ok r)).text
            = truncateDisplay (formatKeywordsResponse (parseResponse r p.format) p.format
                ("Batch search (" ++ toString p.queries.length ++ " queries)")) ∧
        (searchKeywordsBatchRespond p (.ok r)).structuredContent
            = some (parseResponse r p.format)) ∧
    (∀ (p : GetDomainKeywordsInput) (r : RawResponse), p.result_count = false →
        (getDomainKeywordsRespond p (.ok r)).text
            = truncateDisplay (formatDomainResponse (parseResponse r p.format) p.format
                p.domain p.region) ∧
        (getDomainKeywordsRespond p (.ok r)).structuredContent
            = some (parseResponse r p.format)) ∧
    (∀ (p : CompareDomainsInput) (r : RawResponse), p.result_count = false →
        (compareDomainsRespond p (.ok r)).text
            = truncateDisplay (formatComparisonResponse (parseResponse r p.format) p.format
                p.domains p.comparison_type.toStr p.region) ∧
        (compareDomainsRespond p (.ok r)).structuredContent
            = some (.obj (objSetAll (spreadFields (parseResponse r p.format))
                [("domains", .arr (p.domains.map .str)),
                 ("comparison_type", .str p.comparison_type.toStr)]))) :=
  ⟨truncateDisplay_length_le, truncateDisplay_of_gt, truncateDisplay_of_le,
   fun p r h => ⟨searchKeywords_text_eq p r h, searchKeywords_payload_eq p r h⟩,
   fun p r => ⟨searchKeywordsBatch_text_eq p r, searchKeywordsBatch_payload_eq p r⟩,
   fun p r h => ⟨getDomainKeywords_text_eq p r h, getDomainKeywords_payload_eq p r h⟩,
   fun p r h => ⟨compareDomains_text_eq p r h, compareDomains_payload_eq p r h⟩⟩

/-- C1 counterexample: on a keyword search whose formatted text is 25,089
characters long, the returned display text is 25,061 characters — more than the
claimed 25,000-character bound — because the truncation notice is appended
after the 25,000-character cut; and the comparison handler's structured payload
is not literally the normalized result (an array result is spread into an
object with the metadata fields). -/
theorem C1_truncation_policy_counterexample :
    25000 < (searchKeywordsRespond (mkSearchKeywordsInput "q" none none none none)
        (.ok (.struct (.arr [.arr [.str bigKeyword]])))).text.length ∧
    (compareDomainsRespond (mkCompareDomainsInput ["a.com", "b.com"] none none none none none)
        (.ok (.struct (.arr [.num 1])))).structuredContent
      ≠ some (parseResponse (.struct (.arr [.num 1]))
          (mkCompareDomainsInput ["a.com", "b.com"] none none none none none).format) := by
  constructor
  · have hbig : bigKeyword.length = 25010 := by
      show (String.mk (List.replicate 25010 'a')).length = 25010
      rw [String.length_mk, List.length_replicate]
    rw [searchKeywords_text_eq _ _ rfl]
    have hform : formatKeywordsResponse
          (parseResponse (.struct (.arr [.arr [.str bigKeyword]]))
            (mkSearchKeywordsInput "q" none none none none).format)
          (mkSearchKeywordsInput "q" none none none none).format
          (mkSearchKeywordsInput "q" none none none none).query
        = (((("# Keywords Search Results: \"" ++ "q") ++ "\"") ++ "\n\nFound ") ++ "1" ++
            " keywords:\n\n") ++
          (((((("1" ++ ". ") ++ bigKeyword) ++ " - Broad: ") ++ "N/A") ++ ", Exact: ") ++
            "N/A") := rfl
    rw [hform]
    have hlen : (((((("# Keywords Search Results: \"" ++ "q") ++ "\"") ++ "\n\nFound ") ++
            "1" ++ " keywords:\n\n") ++
          (((((("1" ++ ". ") ++ bigKeyword) ++ " - Broad: ") ++ "N/A") ++ ", Exact: ") ++
            "N/A"))).length = 25089 := by
      simp only [String.length_append, hbig]
      decide
    rw [truncateDisplay.eq_def]
    rw [hlen]
    rw [if_pos (by decide : 25089 > CHARACTER_LIMIT)]
    rw [String.length_append, String.length_mk, List.length_take]
    rw [string_data_length, hlen]
    show 25000 < min CHARACTER_LIMIT 25089 + truncNotice.length
    have h61 : truncNotice.length = 61 := by decide
    rw [h61]
    norm_num [CHARACTER_LIMIT]
  · have hp : (compareDomainsRespond
          (mkCompareDomainsInput ["a.com", "b.com"] none none none none none)
          (.ok (.struct (.arr [.num 1])))).structuredContent
        = some (JsVal.obj [("0", .num 1),
            ("domains", .arr [.str "a.com", .str "b.com"]),
            ("comparison_type", .str "intersect")]) := rfl
    rw [hp]
    intro hcon
    exact JsVal.noConfusion (Option.some.inj hcon)

/-- Witness for C1 (amended) at concrete inputs: the bound at "abc", the
truncation shape at a 25,001-character string, identity below the limit, and an
untruncated payload on a concrete keyword search. -/
theorem C1_truncation_policy_amended_witness :
    (truncateDisplay "abc").length ≤ CHARACTER_LIMIT + truncNotice.length ∧
    truncateDisplay bigWitnessStr
      = String.mk (bigWitnessStr.data.take CHARACTER_LIMIT) ++ truncNotice ∧
    truncateDisplay "abc" = "abc" ∧
    (searchKeywordsRespond (mkSearchKeywordsInput "q" none none none none)
        (.ok (.text "hi"))).structuredContent
      = some (parseResponse (.text "hi")
          (mkSearchKeywordsInput "q" none none none none).format) :=
  ⟨C1_truncation_policy_amended.1 "abc",
   C1_truncation_policy_amended.2.1 bigWitnessStr (by
      show CHARACTER_LIMIT < (String.mk (List.replicate 25001 'a')).length
      rw [String.length_mk, List.length_replicate]
      norm_num [CHARACTER_LIMIT]),
   C1_truncation_policy_amended.2.2.1 "abc" (by decide),
   (C1_truncation_policy_amended.2.2.2.1 (mkSearchKeywordsInput "q" none none none none)
      (.text "hi") rfl).2⟩

/-- C2: on a default-parameter search for "окна" the handler does issue the
claimed read request (q percent-encoded, num 250, format json, report_type
report, result_count 0); but on the response body
`[["окна пластиковые",2,17,1200,300]]` the JSON formatter renders
"Broad: 2, Exact: 17" — the words-count and chars-count cells at indices 1 and
2 — not the broad/exact frequencies 1200/300 documented at indices 3 and 4,
because `formatKeywordsResponse` falls back to `kw[1]` and `kw[2]`. -/
theorem C2_single_query_scenario_eval :
    searchKeywordsRequest (mkSearchKeywordsInput "окна" none none none none)
      = { endpoint := "/v1/keywords/", method := .get, data := none,
          params := some [("q", .str "%D0%BE%D0%BA%D0%BD%D0%B0"), ("num", .num 250),
                          ("format", .str "json"), ("report_type", .str "report"),
                          ("result_count", .num 0)] } ∧
    (searchKeywordsRespond (mkSearchKeywordsInput "окна" none none none none)
        (.ok (.struct (.arr [.arr [.str "окна пластиковые", .num 2, .num 17,
          .num 1200, .num 300]])))).text
      = "# Keywords Search Results: \"окна\"\n\nFound 1 keywords:\n\n1. окна пластиковые - Broad: 2, Exact: 17" :=
  ⟨rfl, rfl⟩

/-- C3: the domain-lookup formatter renders Position from index 5 (the
exact-frequency cell), not the documented index 6, and the two-domain
comparison formatter reads no second position at all: on
`["kw",1,2,3,4,5,6]` (and `["kw",1,2,3,4,5,6,7]` for the comparison) both
render "Position: 5, Broad: 4, Exact: 5", leaving the cells at indices 6 and 7
unread. -/
theorem C3_positional_layout_eval :
    formatDomainResponse (.arr [.arr [.str "kw", .num 1, .num 2, .num 3, .num 4,
        .num 5, .num 6]]) .json "example.com" none
      = "# Domain Keywords: example.com\n\nFound 1 keywords:\n\n1. kw - Position: 5, Broad: 4, Exact: 5" ∧
    formatComparisonResponse (.arr [.arr [.str "kw", .num 1, .num 2, .num 3, .num 4,
        .num 5, .num 6, .num 7]]) .json ["a.com", "b.com"] "intersect" none
      = "# Domain Comparison: a.com vs b.com\n\nCommon keywords (1):\n\n1. kw - Position: 5, Broad: 4, Exact: 5" :=
  ⟨rfl, rfl⟩

/-- C4: for every write request with a body, the form-urlencoded body is the
credential pair followed by the caller's fields in their given order, with
list-typed values CRLF-joined before encoding, and the encoded body begins
with `api_key=<encoded key>`; for every read request the credential is among
the query parameters, and it is sent alone when no other query parameters are
supplied. -/
theorem C4_credential_placement :
    (∀ (key ep : String) (d : List (String × FVal)) (qp : Option (List (String × SVal))),
        (makeApiRequestWire key ep .post (some d) qp).body
            = some (formEncode (("api_key", key) ::
                d.map (fun kv => (kv.1, fvalToString kv.2)))) ∧
        (makeApiRequestWire key ep .post (some d) qp).params = none ∧
        ∃ rest : String,
          formEncode (("api_key", key) :: d.map (fun kv => (kv.1, fvalToString kv.2)))
            = ("api_key=" ++ formEncodeComp key) ++ rest) ∧
    (∀ xs : List String, fvalToString (.list xs) = String.intercalate "\r\n" xs) ∧
    (∀ (key ep : String) (qp : List (String × SVal)),
        (makeApiRequestWire key ep .get none (some qp)).params
            = some (objUpsertParams qp "api_key" (.str key)) ∧
        ("api_key", SVal.str key) ∈ objUpsertParams qp "api_key" (.str key)) ∧
    (∀ key ep : String,
        (makeApiRequestWire key ep .get none none).params
          = some [("api_key", SVal.str key)]) := by
  refine ⟨fun key ep d qp => ⟨rfl, rfl, ?_⟩, fun xs => rfl,
    fun key ep qp => ⟨rfl, mem_objUpsertParams qp "api_key" (.str key)⟩,
    fun key ep => rfl⟩
  show ∃ rest, joinSep "&"
      (List.map (fun kv => formEncodeComp kv.1 ++ "=" ++ formEncodeComp kv.2)
        (("api_key", key) :: d.map (fun kv => (kv.1, fvalToString kv.2)))) = _
  rw [List.map_cons]
  obtain ⟨r, hr⟩ := joinSep_cons_ex "&"
    (formEncodeComp "api_key" ++ "=" ++ formEncodeComp key)
    ((d.map (fun kv => (kv.1, fvalToString kv.2))).map
      (fun kv => formEncodeComp kv.1 ++ "=" ++ formEncodeComp kv.2))
  refine ⟨r, ?_⟩
  rw [hr]
  have hk : formEncodeComp "api_key" = "api_key" := by decide
  rw [hk]
  have h2 : "api_key" ++ "=" = "api_key=" := by decide
  rw [h2]

/-- C5: normalizing `"a;b\n1;2\n3"` with the csv tag yields headers
`["a","b"]` and rows `[{a:"1",b:"2"},{a:"3",b:""}]` (missing trailing cells
become empty strings); extra cells beyond the header count are dropped
(`"a;b\n1;2;9"`); and each value is trimmed with one leading and one trailing
quote stripped (`"h\n \"v\" "`). -/
theorem C5_delimited_normalization_eval :
    parseResponse (.text "a;b\n1;2\n3") .csv
      = .obj [("headers", .arr [.str "a", .str "b"]),
              ("rows", .arr [.obj [("a", .str "1"), ("b", .str "2")],
                             .obj [("a", .str "3"), ("b", .str "")]])] ∧
    parseResponse (.text "a;b\n1;2;9") .csv
      = .obj [("headers", .arr [.str "a", .str "b"]),
              ("rows", .arr [.obj [("a", .str "1"), ("b", .str "2")]])] ∧
    parseResponse (.text "h\n \"v\" ") .csv
      = .obj [("headers", .arr [.str "h"]),
              ("rows", .arr [.obj [("h", .str "v")]])] :=
  ⟨rfl, rfl, rfl⟩

/-- C6: JSON normalization is total on text input — when the text decodes as
JSON the decoded value is returned, when it does not the result is the wrapper
`{raw: <original text>}` rather than a failure — and an already-decoded
structure is returned unchanged. -/
theorem C6_json_normalization_total :
    (∀ s : String, jsonDecode s = none →
        parseResponse (.text s) .json = .obj [("raw", .str s)]) ∧
    (∀ (s : String) (v : JsVal), jsonDecode s = some v →
        parseResponse (.text s) .json = v) ∧
    (∀ v : JsVal, parseResponse (.struct v) .json = v) := by
  refine ⟨fun s h => ?_, fun s v h => ?_, fun v => rfl⟩
  · simp only [parseResponse, h]
  · simp only [parseResponse, h]

/-- Witness for C6 at concrete inputs: the invalid text "not json" wraps into
`{raw: "not json"}`, and the valid text "[1]" decodes to the array `[1]`. -/
theorem C6_json_normalization_total_witness :
    parseResponse (.text "not json") .json = .obj [("raw", .str "not json")] ∧
    parseResponse (.text "[1]") .json = .arr [.num 1] :=
  ⟨C6_json_normalization_total.1 "not json" rfl,
   C6_json_normalization_total.2.1 "[1]" (.arr [.num 1]) rfl⟩

/-- C8: whatever the operation and whatever the 402 response body, the outcome
text is the fixed limit-exceeded message, which states the free-tier ceilings
of 100 queries, 250 exclusions and 10 domains. -/
theorem C8_status402_message :
    ∀ (body : RawResponse) (p1 : SearchKeywordsInput) (p2 : SearchKeywordsBatchInput)
      (p3 : GetDomainKeywordsInput) (p4 : CompareDomainsInput),
      (searchKeywordsRespond p1 (.error (.httpStatus 402 body))).text
          = handleApiError (.httpStatus 402 body) ∧
      (searchKeywordsBatchRespond p2 (.error (.httpStatus 402 body))).text
          = handleApiError (.httpStatus 402 body) ∧
      (getDomainKeywordsRespond p3 (.error (.httpStatus 402 body))).text
          = handleApiError (.httpStatus 402 body) ∧
      (compareDomainsRespond p4 (.error (.httpStatus 402 body))).text
          = handleApiError (.httpStatus 402 body) ∧
      handleApiError (.httpStatus 402 body)
          = "Error: Limit exceeded. Free API limits: max 100 queries, 250 exclusions, 10 domains for comparison. Try reducing the \x27num\x27 parameter or use filters." ∧
      (∃ a b : String, handleApiError (.httpStatus 402 body) = (a ++ "100 queries") ++ b) ∧
      (∃ a b : String, handleApiError (.httpStatus 402 body) = (a ++ "250 exclusions") ++ b) ∧
      (∃ a b : String, handleApiError (.httpStatus 402 body) = (a ++ "10 domains") ++ b) := by
  intro body p1 p2 p3 p4
  have hmsg : handleApiError (.httpStatus 402 body)
      = "Error: Limit exceeded. Free API limits: max 100 queries, 250 exclusions, 10 domains for comparison. Try reducing the \x27num\x27 parameter or use filters." := rfl
  refine ⟨rfl, rfl, rfl, rfl, hmsg,
    ⟨"Error: Limit exceeded. Free API limits: max ",
     ", 250 exclusions, 10 domains for comparison. Try reducing the \x27num\x27 parameter or use filters.",
     by rw [hmsg]; decide⟩,
    ⟨"Error: Limit exceeded. Free API limits: max 100 queries, ",
     ", 10 domains for comparison. Try reducing the \x27num\x27 parameter or use filters.",
     by rw [hmsg]; decide⟩,
    ⟨"Error: Limit exceeded. Free API limits: max 100 queries, 250 exclusions, ",
     " for comparison. Try reducing the \x27num\x27 parameter or use filters.",
     by rw [hmsg]; decide⟩⟩

/-- C9: every transport/classification error is absorbed at the handler
boundary of each of the four operations: the outcome carries exactly the
classified display text and no structured payload, and — the handlers being
total functions into `Outcome` — nothing propagates past them. -/
theorem C9_errors_contained :
    ∀ (e : ApiErr) (p1 : SearchKeywordsInput) (p2 : SearchKeywordsBatchInput)
      (p3 : GetDomainKeywordsInput) (p4 : CompareDomainsInput),
      searchKeywordsRespond p1 (.error e)
          = { text := handleApiError e, structuredContent := none } ∧
      searchKeywordsBatchRespond p2 (.error e)
          = { text := handleApiError e, structuredContent := none } ∧
      getDomainKeywordsRespond p3 (.error e)
          = { text := handleApiError e, structuredContent := none } ∧
      compareDomainsRespond p4 (.error e)
          = { text := handleApiError e, structuredContent := none } :=
  fun _ _ _ _ _ => ⟨rfl, rfl, rfl, rfl⟩

/-- C7: with more than two domains the comparison request targets
`/v1/site_mcmp/` over POST and never transmits `comparison_type` (in both the
count-only and the full path); with exactly two domains it targets
`/v1/site_cmp/` over GET with `comparison_type` among the query parameters,
whose value defaults to "intersect" when the caller left it unspecified. -/
theorem C7_comparison_routing :
    ∀ (domains : List String) (ct : Option ComparisonType) (region : Option String)
      (num : Option Nat) (format : Option Format) (rc : Option Bool),
      (2 < domains.length →
        (compareDomainsRequest (mkCompareDomainsInput domains ct region num format rc)).endpoint
            = "/v1/site_mcmp/" ∧
        (compareDomainsRequest (mkCompareDomainsInput domains ct region num format rc)).method
            = .post ∧
        "comparison_type" ∉
          ((compareDomainsRequest (mkCompareDomainsInput domains ct region num format rc)).data.getD
            []).map Prod.fst ∧
        (compareDomainsRequest (mkCompareDomainsInput domains ct region num format rc)).params
            = none) ∧
      (domains.length = 2 →
        (compareDomainsRequest (mkCompareDomainsInput domains ct region num format rc)).endpoint
            = "/v1/site_cmp/" ∧
        (compareDomainsRequest (mkCompareDomainsInput domains ct region num format rc)).method
            = .get ∧
        (compareDomainsRequest (mkCompareDomainsInput domains ct region num format rc)).data
            = none ∧
        ("comparison_type", SVal.str (ct.getD .intersect).toStr) ∈
          ((compareDomainsRequest (mkCompareDomainsInput domains ct region num format rc)).params.getD
            []) ∧
        (ct = none →
          ("comparison_type", SVal.str "intersect") ∈
            ((compareDomainsRequest (mkCompareDomainsInput domains ct region num format rc)).params.getD
              []))) := by
  intro domains ct region num format rc
  constructor
  · intro h
    have h2 : (domains.length == 2) = false := by
      simp only [beq_eq_false_iff_ne, ne_eq]
      omega
    cases hb : rc.getD false <;>
      cases region <;>
        simp [compareDomainsRequest, mkCompareDomainsInput, h2, hb, regionParam]
  · intro h
    have h2 : (domains.length == 2) = true := by
      simp [h]
    have hct := comparisonType_toStr_ne_empty (ct.getD .intersect)
    constructor
    · cases hb : rc.getD false <;>
        simp [compareDomainsRequest, mkCompareDomainsInput, h2, hb]
    constructor
    · cases hb : rc.getD false <;>
        simp [compareDomainsRequest, mkCompareDomainsInput, h2, hb]
    constructor
    · cases hb : rc.getD false <;>
        simp [compareDomainsRequest, mkCompareDomainsInput, h2, hb]
    constructor
    · cases hb : rc.getD false <;>
        cases region <;>
          simp [compareDomainsRequest, mkCompareDomainsInput, h2, hb, hct, regionParam]
    · intro hctnone
      subst hctnone
      cases hb : rc.getD false <;>
        cases region <;>
          simp [compareDomainsRequest, mkCompareDomainsInput, h2, hb, hct, regionParam,
            ComparisonType.toStr]

/-- Witness for C7 at concrete inputs: three domains route to the
multi-compare endpoint over POST without `comparison_type`; two domains with
no caller-specified comparison type route to the two-way endpoint over GET
with `comparison_type=intersect` transmitted. -/
theorem C7_comparison_routing_witness :
    (compareDomainsRequest (mkCompareDomainsInput ["a.com", "b.com", "c.com"]
        none none none none none)).endpoint = "/v1/site_mcmp/" ∧
    (compareDomainsRequest (mkCompareDomainsInput ["a.com", "b.com", "c.com"]
        none none none none none)).method = .post ∧
    "comparison_type" ∉
      ((compareDomainsRequest (mkCompareDomainsInput ["a.com", "b.com", "c.com"]
        none none none none none)).data.getD []).map Prod.fst ∧
    (compareDomainsRequest (mkCompareDomainsInput ["a.com", "b.com"]
        none none none none none)).endpoint = "/v1/site_cmp/" ∧
    (compareDomainsRequest (mkCompareDomainsInput ["a.com", "b.com"]
        none none none none none)).method = .get ∧
    ("comparison_type", SVal.str "intersect") ∈
      ((compareDomainsRequest (mkCompareDomainsInput ["a.com", "b.com"]
        none none none none none)).params.getD []) := by
  have h3 := C7_comparison_routing ["a.com", "b.com", "c.com"] none none none none none
  have h2 := C7_comparison_routing ["a.com", "b.com"] none none none none none
  exact ⟨(h3.1 (by decide)).1, (h3.1 (by decide)).2.1, (h3.1 (by decide)).2.2.1,
    (h2.2 rfl).1, (h2.2 rfl).2.1, (h2.2 rfl).2.2.2.2 rfl⟩

/-- C10: the falsy-or field-access chains of the formatters never produce the
number 0 — their result is always truthy or the "N/A" default — so an array
element whose broad- or exact-frequency cell is 0, or an object element whose
named frequency field is 0, renders the next fallback of the chain or "N/A"
instead of the actual zero. -/
theorem C10_zero_frequency_fallback :
    (∀ kw : JsVal, truthy (kwRecBroad kw) = true ∧ truthy (kwRecExact kw) = true ∧
        truthy (domRecBroad kw) = true ∧ truthy (domRecExact kw) = true ∧
        truthy (cmpRecBroad kw) = true ∧ truthy (cmpRecExact kw) = true) ∧
    (∀ cells : List JsVal, cells.get? 1 = some (.num 0) →
        kwRecBroad (.arr cells) = .str "N/A") ∧
    (∀ cells : List JsVal, cells.get? 2 = some (.num 0) →
        kwRecExact (.arr cells) = .str "N/A") ∧
    (∀ cells : List JsVal, cells.get? 4 = some (.num 0) →
        domRecBroad (.arr cells) = .str "N/A" ∧ cmpRecBroad (.arr cells) = .str "N/A") ∧
    (∀ cells : List JsVal, cells.get? 5 = some (.num 0) →
        domRecExact (.arr cells) = .str "N/A" ∧ cmpRecExact (.arr cells) = .str "N/A") ∧
    (∀ fields : List (String × JsVal),
        getProp (.obj fields) "broad_frequency" = .num 0 →
        kwRecBroad (.obj fields) = jsOr (idx (.obj fields) 1) (.str "N/A") ∧
        domRecBroad (.obj fields) = jsOr (idx (.obj fields) 4) (.str "N/A")) := by
  refine ⟨fun kw => ?_, fun cells h => ?_, fun cells h => ?_, fun cells h => ?_,
    fun cells h => ?_, fun fields h => ?_⟩
  · exact ⟨truthy_jsOr_chain _ _ _ rfl, truthy_jsOr_chain _ _ _ rfl,
      truthy_jsOr_chain _ _ _ rfl, truthy_jsOr_chain _ _ _ rfl,
      truthy_jsOr_chain _ _ _ rfl, truthy_jsOr_chain _ _ _ rfl⟩
  · rw [List.get?_eq_getElem?] at h
    simp [kwRecBroad, getProp, idx, jsOr, truthy, h]
  · rw [List.get?_eq_getElem?] at h
    simp [kwRecExact, getProp, idx, jsOr, truthy, h]
  · rw [List.get?_eq_getElem?] at h
    constructor <;> simp [domRecBroad, cmpRecBroad, getProp, idx, jsOr, truthy, h]
  · rw [List.get?_eq_getElem?] at h
    constructor <;> simp [domRecExact, cmpRecExact, getProp, idx, jsOr, truthy, h]
  · constructor <;> simp [kwRecBroad, domRecBroad, jsOr, truthy, h]

/-- Witness for C10 at a concrete array element and object element whose
frequency cells are 0: every chain renders "N/A". -/
theorem C10_zero_frequency_fallback_witness :
    truthy (kwRecBroad (.num 0)) = true ∧
    kwRecBroad (.arr [.str "k", .num 0, .num 0, .num 0, .num 0, .num 0]) = .str "N/A" ∧
    kwRecExact (.arr [.str "k", .num 0, .num 0, .num 0, .num 0, .num 0]) = .str "N/A" ∧
    domRecBroad (.arr [.str "k", .num 0, .num 0, .num 0, .num 0, .num 0]) = .str "N/A" ∧
    domRecExact (.arr [.str "k", .num 0, .num 0, .num 0, .num 0, .num 0]) = .str "N/A" ∧
    kwRecBroad (.obj [("broad_frequency", .num 0)])
      = jsOr (idx (.obj [("broad_frequency", .num 0)]) 1) (.str "N/A") :=
  ⟨(C10_zero_frequency_fallback.1 (.num 0)).1,
   C10_zero_frequency_fallback.2.1 _ rfl,
   C10_zero_frequency_fallback.2.2.1 _ rfl,
   (C10_zero_frequency_fallback.2.2.2.1
      [.str "k", .num 0, .num 0, .num 0, .num 0, .num 0] rfl).1,
   (C10_zero_frequency_fallback.2.2.2.2.1
      [.str "k", .num 0, .num 0, .num 0, .num 0, .num 0] rfl).1,
   (C10_zero_frequency_fallback.2.2.2.2.2 [("broad_frequency", .num 0)] rfl).1⟩
